import Mathlib

/-!
Shallow embedding of the replicache-rpc core: the schema-agnostic
validation adapter (`src/util.ts`), the producer-side registry and
dispatcher (`src/server.ts`), the consumer-side builder, built dispatch
surface and query facade (`src/client.ts`), and the subscription bridge
(`src/react.tsx`).  The underlying Replicache store is an external
collaborator; its boundary (constructor taking named mutators, a `mutate`
surface, a one-shot `query`, a `subscribe` entry point) is modelled as a
small explicit state.
-/

namespace ReplicacheRpc

/-- Primitive JSON leaf values. -/
inductive Prim where
  | pnull : Prim
  | pbool : Bool → Prim
  | pint : Int → Prim
  | pstr : String → Prim
deriving Repr, DecidableEq, Inhabited

/-- JSON-like runtime values (one level of nesting, which is all the
dispatch layer inspects: it treats payloads opaquely everywhere except
the dependency-tuple flattening of the subscription bridge). -/
inductive Value where
  | prim : Prim → Value
  | vlist : List Prim → Value
  | vobj : List (String × Prim) → Value
deriving Repr, DecidableEq, Inhabited

/-- JavaScript truthiness of a `Value` (objects and arrays are truthy,
`null`, `false`, `0` and the empty string are falsy). -/
def Value.truthy : Value → Bool
  | .prim .pnull => false
  | .prim (.pbool b) => b
  | .prim (.pint n) => n != 0
  | .prim (.pstr s) => s ≠ ""
  | .vlist _ => true
  | .vobj _ => true

/-- One validation issue of a standard-schema failure result:
a message plus an optional path. -/
structure Issue where
  message : String
  path : Option (List String)
deriving Repr, DecidableEq, Inhabited

/-- Minimal JSON string escaping used by the issue serializer. -/
def jsonEscape (s : String) : String :=
  s.foldl (fun acc c =>
    if c = '"' then acc ++ "\\\"" else if c = '\\' then acc ++ "\\\\" else acc.push c) ""

/-- Serialization of one issue object, two-space indented, as
`JSON.stringify` renders an element of the issues array. -/
def serializeIssue (i : Issue) : String :=
  let msg := "    \"message\": \"" ++ jsonEscape i.message ++ "\""
  match i.path with
  | none => "  \x7b\n" ++ msg ++ "\n  \x7d"
  | some p =>
    let parts := p.map (fun seg => "      \"" ++ jsonEscape seg ++ "\"")
    let pathStr := match parts with
      | [] => "    \"path\": []"
      | _ => "    \"path\": [\n" ++ String.intercalate ",\n" parts ++ "\n    ]"
    "  \x7b\n" ++ msg ++ ",\n" ++ pathStr ++ "\n  \x7d"

/-- Model of `JSON.stringify(issues, null, 2)`: the serialized ordered
issue list that becomes a `ValidationError`'s message. -/
def serializeIssues (issues : List Issue) : String :=
  match issues with
  | [] => "[]"
  | _ => "[\n" ++ String.intercalate ",\n" (issues.map serializeIssue) ++ "\n]"

/-- Runtime errors thrown by the embedded code: `ValidationError`
(carrying the full ordered issue list), `MutationNotFoundError`
(carrying the attempted name), and a plain `Error(message)`. -/
inductive JsError where
  | validationError : List Issue → JsError
  | mutationNotFoundError : String → JsError
  | error : String → JsError
deriving Repr, DecidableEq, Inhabited

/-- The `message` property of each error, mirroring the `super(...)`
call of each class: `ValidationError` serializes its issues,
`MutationNotFoundError` uses the template `Unknown mutation: <name>`. -/
def JsError.message : JsError → String
  | .validationError issues => serializeIssues issues
  | .mutationNotFoundError name => "Unknown mutation: " ++ name
  | .error m => m

/-- A standard-schema validation outcome: a parsed value, or a failure
carrying its ordered issue list (failure is detected by the presence of
the `issues` field). -/
inductive StdResult where
  | success : Value → StdResult
  | failure : List Issue → StdResult
deriving Repr, DecidableEq, Inhabited

/-- What `schema["~standard"].validate(input)` returns: either the
result directly (synchronous validator) or a pending computation of it
(asynchronous validator). -/
inductive SchemaReturn where
  | sync : StdResult → SchemaReturn
  | promise : StdResult → SchemaReturn
deriving Repr, DecidableEq, Inhabited

/-- The result carried by a `SchemaReturn`, after awaiting if needed. -/
def SchemaReturn.result : SchemaReturn → StdResult
  | .sync r => r
  | .promise r => r

/-- Whether the validator returned a pending computation. -/
def SchemaReturn.isPromise : SchemaReturn → Bool
  | .sync _ => false
  | .promise _ => true

/-- A schema value: an opaque validator exposing
`~standard.validate : input → result-or-promise`. -/
structure Schema where
  run : Value → SchemaReturn

/-- Embedding of `validate` from `src/util.ts`: call the validator,
await if the returned value is a promise, throw `ValidationError` when
the `issues` field is present, else return the parsed `value`. -/
def validate (schema : Schema) (input : Value) : Except JsError Value :=
  let result := match schema.run input with
    | .sync r => r
    | .promise r => r
  match result with
  | .failure issues => .error (.validationError issues)
  | .success v => .ok v

/-- Whether the `validate` call awaited: true exactly when the
validator returned a pending computation (`result instanceof Promise`). -/
def validateAwaits (schema : Schema) (input : Value) : Bool :=
  (schema.run input).isPromise

/-! ## Producer side: `ReplicacheServer` (`src/server.ts`) -/

/-- A server mutation handler: takes the validated input, returns
`void` or throws.  Instrumented dispatch records the inputs it is
actually invoked with. -/
def ServerHandler : Type := Value → Except JsError Unit

/-- A handler with a `schema` property attached (the two-argument
registration shape `mutation(name, handlerWithAttachedSchema)`). -/
structure ServerHandlerWithSchema where
  fn : ServerHandler
  schema : Schema

/-- A stored mutation definition: `{ name, schema, fn }`. -/
structure ServerMutatorDef where
  name : String
  schema : Schema
  fn : ServerHandler

/-- The producer-side registry: the private `#mutators` record, keyed
by name (a JS object holds at most one entry per key). -/
structure ReplicacheServer where
  mutators : String → Option ServerMutatorDef

/-- The empty server, `new ReplicacheServer()`. -/
def ReplicacheServer.empty : ReplicacheServer := ⟨fun _ => none⟩

/-- Three-argument registration `mutation(name, schema, handler)`:
spread the old record and add/override the entry at `name`, returning a
fresh `ReplicacheServer` built from the new record. -/
def ReplicacheServer.mutation (srv : ReplicacheServer) (name : String)
    (schema : Schema) (fn : ServerHandler) : ReplicacheServer :=
  ⟨fun k => if k = name then some ⟨name, schema, fn⟩ else srv.mutators k⟩

/-- Two-argument registration `mutation(name, handler)` where the
schema is read off the handler's attached `schema` property
(`args[1].schema`), the stored `fn` being the handler itself. -/
def ReplicacheServer.mutationAttached (srv : ReplicacheServer) (name : String)
    (h : ServerHandlerWithSchema) : ReplicacheServer :=
  ⟨fun k => if k = name then some ⟨name, h.schema, h.fn⟩ else srv.mutators k⟩

/-- Embedding of `ReplicacheServer.mutate(name, args)`: look the name
up, throw `MutationNotFoundError` if absent, validate the raw args,
then invoke the handler with the parsed input.  The second component
is the instrumentation: the list of inputs the handler was invoked
with (empty when it never ran). -/
def ReplicacheServer.mutate (srv : ReplicacheServer) (name : String)
    (args : Value) : Except JsError Unit × List Value :=
  match srv.mutators name with
  | none => (.error (.mutationNotFoundError name), [])
  | some m =>
    match validate m.schema args with
    | .error e => (.error e, [])
    | .ok input => (m.fn input, [input])

/-! ## Consumer side: `ReplicacheClient` builder (`src/client.ts`) -/

/-- The key-value state held by the underlying Replicache store;
handlers view it through a transaction context. -/
def KVState : Type := List (String × Value)

/-- A client mutation handler `(tx, args) => ...`: reads/writes the
store state through the write transaction and returns an output value,
or throws. -/
def ClientHandler : Type := KVState → Value → Except JsError (KVState × Value)

/-- A client handler carrying an attached `schema` property. -/
structure ClientHandlerWithSchema where
  fn : ClientHandler
  schema : Schema

/-- A stored client mutation definition `{ name, schema, fn }`. -/
structure ClientMutatorDef where
  name : String
  schema : Schema
  fn : ClientHandler

/-- A query handler `(tx, args) => ...`: reads the store state through
the read transaction and returns a result, or throws. -/
def QueryHandler : Type := KVState → Value → Except JsError Value

/-- A stored query definition `{ name, schema, fn }`. -/
structure QueryDef where
  name : String
  schema : Schema
  fn : QueryHandler

/-- The consumer-side registry: options plus the private `#queries`
and `#mutators` records. -/
structure ReplicacheClient where
  options : Value
  queries : String → Option QueryDef
  mutators : String → Option ClientMutatorDef

/-- `new ReplicacheClient(options)` with empty definition records. -/
def ReplicacheClient.mk0 (options : Value) : ReplicacheClient :=
  ⟨options, fun _ => none, fun _ => none⟩

/-- Three-argument `mutation(name, schema, handler)`: fresh client,
same options and queries, mutators spread plus the new entry. -/
def ReplicacheClient.mutation (c : ReplicacheClient) (name : String)
    (schema : Schema) (fn : ClientHandler) : ReplicacheClient :=
  ⟨c.options, c.queries,
    fun k => if k = name then some ⟨name, schema, fn⟩ else c.mutators k⟩

/-- Two-argument `mutation(name, handler)` reading the schema off the
handler's attached `schema` property. -/
def ReplicacheClient.mutationAttached (c : ReplicacheClient) (name : String)
    (h : ClientHandlerWithSchema) : ReplicacheClient :=
  ⟨c.options, c.queries,
    fun k => if k = name then some ⟨name, h.schema, h.fn⟩ else c.mutators k⟩

/-- `query(name, schema, queryFn)`: fresh client, same options and
mutators, queries spread plus the new entry. -/
def ReplicacheClient.query (c : ReplicacheClient) (name : String)
    (schema : Schema) (fn : QueryHandler) : ReplicacheClient :=
  ⟨c.options,
    fun k => if k = name then some ⟨name, schema, fn⟩ else c.queries k,
    c.mutators⟩

/-! ## The built dispatch surface (`ReplicacheClient.build`)

The underlying Replicache store is an external collaborator (spec §6):
a constructor taking the named mutator functions, a `mutate` surface
keyed by the same names, a one-shot `rep.query(txFn)` read entry point
and a `subscribe` entry point.  `Rep` models the live store handle:
its key-value state plus an instrumentation counter of read
transactions opened by `rep.query`. -/

/-- The live store handle produced at build time. -/
structure Rep where
  state : KVState
  readTxCount : Nat

/-- A raw mutator as registered with the store constructor:
`(tx, input) => output`, instrumented with the list of values the user
handler was invoked with. -/
def RawMutator : Type :=
  KVState → Value → Except JsError (KVState × Value) × List Value

/-- The transaction-wrapped mutator `build()` registers with the store
for one definition: validate the incoming input inside the transaction
and only then call the user handler with the parsed value
(`async (tx, input) => mutatorDef.fn(tx, await validate(mutatorDef.schema, input))`). -/
def builtMutator (d : ClientMutatorDef) : RawMutator := fun tx input =>
  match validate d.schema input with
  | .error e => (.error e, [])
  | .ok parsed => (d.fn tx parsed, [parsed])

/-- The named mutator set handed to the store constructor: one wrapped
mutator per registered definition (`Object.entries(this.#mutators)`). -/
def ReplicacheClient.repMutators (c : ReplicacheClient) (name : String) :
    Option RawMutator :=
  (c.mutators name).map builtMutator

/-- `rep.mutate[name](input)`: run the registered wrapped mutator in a
write transaction against the current state; on success the state
advances, on a throw the transaction aborts and the state is kept. -/
def Rep.mutateRun (rep : Rep) (raw : RawMutator) (input : Value) :
    Except JsError Value × Rep × List Value :=
  match raw rep.state input with
  | (.error e, calls) => (.error e, rep, calls)
  | (.ok (s, out), calls) => (.ok out, { rep with state := s }, calls)

/-- `rep.query(txFn)`: open one fresh read transaction against the
current state, run the transaction function, resolve with its result.
The handle does not outlive the call: the state is unchanged and the
read-transaction counter advances by one. -/
def Rep.queryRun (rep : Rep) (txFn : KVState → Except JsError Value × List (KVState × Value)) :
    Except JsError Value × Rep × List (KVState × Value) :=
  let (r, calls) := txFn rep.state
  (r, { rep with readTxCount := rep.readTxCount + 1 }, calls)

/-- The built `mutate` surface: `Object.fromEntries` over the
registered mutators, so an unregistered name has no entry at all
(looking it up yields `undefined`; there is no function to call).  For
a registered name the entry validates the raw input, looks the wrapped
mutator up on `rep.mutate` (throwing `Error("Mutation not found")` if
it were absent) and forwards the parsed value to it. -/
def ReplicacheClient.mutateSurface (c : ReplicacheClient) (name : String) :
    Option (Rep → Value → Except JsError Value × Rep × List Value) :=
  (c.mutators name).map fun d => fun rep input =>
    match validate d.schema input with
    | .error e => (.error e, rep, [])
    | .ok parsed =>
      match c.repMutators name with
      | none => (.error (.error "Mutation not found"), rep, [])
      | some raw => rep.mutateRun raw parsed

/-- The transaction-scoped form of a built query
(`async function queryFn(tx, input)`): validate, then run the handler
inside the caller-supplied transaction.  Instrumented with the list of
`(transaction-state, parsed-input)` pairs the handler was invoked with. -/
def builtQueryTx (d : QueryDef) (tx : KVState) (input : Value) :
    Except JsError Value × List (KVState × Value) :=
  match validate d.schema input with
  | .error e => (.error e, [])
  | .ok parsed => (d.fn tx parsed, [(tx, parsed)])

/-- `queryFn.once(input)`: call `rep.query` with a transaction function
that validates the input and invokes the handler inside the fresh read
transaction. -/
def queryOnce (d : QueryDef) (rep : Rep) (input : Value) :
    Except JsError Value × Rep × List (KVState × Value) :=
  rep.queryRun fun tx =>
    match validate d.schema input with
    | .error e => (.error e, [])
    | .ok parsed => (d.fn tx parsed, [(tx, parsed)])

/-- The built `query` facade: one entry per registered query name. -/
def ReplicacheClient.querySurface (c : ReplicacheClient) (name : String) :
    Option QueryDef :=
  c.queries name

/-! ## Subscription bridge: `useQuery` (`src/react.tsx`)

`useQuery` keeps `queryData` in a ref, `loading` in component state,
and memoizes the `subscribe` callback on a dependency array computed
from the dependency tuple: the tuple's elements if it is an array, its
property values if it is an object, the value itself if it is a truthy
scalar, and the empty array otherwise.  `useSyncExternalStore` tears
the store-level subscription down and re-establishes it exactly when
the memoized callback's identity changes, i.e. when that array changes
under element-wise comparison of its constituent values.  The hook is
modelled as a step function over its observable state, with one event
per render, data delivery, or error delivery. -/

/-- The dependency array handed to `useCallback`, computed from the
dependency tuple exactly as in the source:
`deps ? (Array.isArray(deps) ? deps : typeof deps === "object" ? Object.values(deps) : [deps]) : []`. -/
def depsOf (dependencies : Value) : List Value :=
  if dependencies.truthy then
    match dependencies with
    | .vlist xs => xs.map Value.prim
    | .vobj fs => fs.map (fun f => Value.prim f.2)
    | .prim p => [Value.prim p]
  else []

/-- Observable state of one `useQuery` consumer: the snapshot ref, the
`loading` flag, the memoized dependency array, which store-level
subscription is active (`generation`), how many have been torn down,
the dependency value captured by the active subscription's transaction
closure, and the `console.error` log. -/
structure UseQueryState where
  snapshot : Option Value
  loading : Bool
  depsArray : List Value
  generation : Nat
  torndown : Nat
  activeDependencies : Value
  log : List JsError
deriving Repr, DecidableEq

/-- Initial hook state on mount: `loading = true`, no snapshot, one
store-level subscription opened with the initial dependency value. -/
def useQueryInit (dependencies : Value) : UseQueryState :=
  { snapshot := none, loading := true, depsArray := depsOf dependencies,
    generation := 0, torndown := 0, activeDependencies := dependencies,
    log := [] }

/-- Events observable by one `useQuery` consumer. -/
inductive UQEvent where
  | render : Value → UQEvent
  | data : Value → UQEvent
  | err : JsError → UQEvent
deriving Repr, DecidableEq

/-- One step of the hook.  The boolean reports whether the consumer
was notified (the `callback()` handed to `subscribe` was invoked).
A render leaves everything alone when the computed dependency array is
unchanged; otherwise the old subscription is torn down and a new one
opened with the fresh dependency value — and `loading` is left as it
was (the source never calls `setLoading(true)` after mount).
`onData` stores the snapshot, clears `loading` and notifies; `onError`
logs the error and clears `loading`, leaving the snapshot alone and
notifying nobody (it neither throws nor calls `callback`). -/
def useQueryStep (s : UseQueryState) : UQEvent → UseQueryState × Bool
  | .render dependencies =>
    let nd := depsOf dependencies
    if nd = s.depsArray then (s, false)
    else
      ({ s with depsArray := nd, generation := s.generation + 1,
                torndown := s.torndown + 1,
                activeDependencies := dependencies }, false)
  | .data d => ({ s with snapshot := some d, loading := false }, true)
  | .err e => ({ s with loading := false, log := s.log ++ [e] }, false)

/-- Run a sequence of events, counting consumer notifications. -/
def runEvents (s : UseQueryState) : List UQEvent → UseQueryState × Nat
  | [] => (s, 0)
  | e :: rest =>
    let (s1, notified) := useQueryStep s e
    let (s2, k) := runEvents s1 rest
    (s2, (if notified then 1 else 0) + k)

/-- The payload of the last successful re-evaluation in a trace. -/
def lastData : List UQEvent → Option Value
  | [] => none
  | e :: rest =>
    match lastData rest with
    | some d => some d
    | none => match e with | .data d => some d | _ => none

/-- The errors delivered in a trace, in order. -/
def errorsOf : List UQEvent → List JsError
  | [] => []
  | .err x :: rest => x :: errorsOf rest
  | _ :: rest => errorsOf rest

/-- The number of successful re-evaluations in a trace. -/
def countData : List UQEvent → Nat
  | [] => 0
  | .data _ :: rest => countData rest + 1
  | _ :: rest => countData rest

/-- Whether any re-evaluation (successful or failed) completed in a
trace. -/
def anyEval : List UQEvent → Bool
  | [] => false
  | .data _ :: _ => true
  | .err _ :: _ => true
  | .render _ :: rest => anyEval rest

/-- How many times a trace forces a resubscription, starting from a
given current dependency array: one per render whose computed
dependency array differs from the active one under element-wise
comparison of its constituent values. -/
def resubscribes (deps : List Value) : List UQEvent → Nat
  | [] => 0
  | .render v :: rest =>
    if depsOf v = deps then resubscribes deps rest
    else resubscribes (depsOf v) rest + 1
  | _ :: rest => resubscribes deps rest

/-- The dependency value captured by the subscription that is active
after a trace: the initial one until a render changes the dependency
array, then the fresh value of the latest such render. -/
def activeDepsSpec (deps : List Value) (cur : Value) : List UQEvent → Value
  | [] => cur
  | .render v :: rest =>
    if depsOf v = deps then activeDepsSpec deps cur rest
    else activeDepsSpec (depsOf v) v rest
  | _ :: rest => activeDepsSpec deps cur rest

/-! ## Convenience wrappers and concrete fixtures -/

/-- Dispatch one call through the built `mutate` surface: `none` when
the name has no entry (the property is `undefined`, so there is
nothing to call), otherwise the entry applied to the live store handle
and the raw input. -/
def ReplicacheClient.mutateCall (c : ReplicacheClient) (rep : Rep)
    (name : String) (input : Value) :
    Option (Except JsError Value × Rep × List Value) :=
  (c.mutateSurface name).map fun f => f rep input

/-- A synchronous schema accepting everything unchanged. -/
def idSchema : Schema := ⟨fun v => .sync (.success v)⟩

/-- An asynchronous schema accepting only integers and rejecting the
rest with one issue. -/
def intOnlySchema : Schema :=
  ⟨fun v => match v with
    | .prim (.pint n) => .promise (.success (.prim (.pint n)))
    | _ => .sync (.failure [⟨"expected number", some ["id"]⟩])⟩

/-- A concrete server handler that succeeds on every input. -/
def okServerHandler : ServerHandler := fun _ => .ok ()

/-- A concrete client handler storing its input under a fixed key. -/
def storeHandler : ClientHandler := fun tx v => .ok (("/user/1", v) :: tx, v)

/-- A concrete query handler returning the stored list length. -/
def countHandler : QueryHandler := fun tx _ => .ok (.prim (.pint tx.length))

/-- A concrete server registry with one mutation. -/
def exampleServer : ReplicacheServer :=
  ReplicacheServer.empty.mutation "createUser" intOnlySchema okServerHandler

/-- A concrete client registry with one mutation and one query. -/
def exampleClient : ReplicacheClient :=
  ((ReplicacheClient.mk0 (.prim .pnull)).mutation "createUser" intOnlySchema
    storeHandler).query "getUser" intOnlySchema countHandler

/-- A concrete live store handle with empty state. -/
def rep0 : Rep := ⟨[], 0⟩

/-! ## Helper lemmas -/

/-- `validate` in terms of the validator's underlying result: the
sync/async wrapper is stripped and only the carried result matters. -/
theorem validate_run_eq (s : Schema) (i : Value) :
    validate s i =
      match (s.run i).result with
      | .failure issues => .error (.validationError issues)
      | .success v => .ok v := by
  unfold validate SchemaReturn.result
  cases s.run i <;> rfl

/-- Prepending the same string is cancellable. -/
theorem string_append_left_cancel {p a b : String}
    (h : p ++ a = p ++ b) : a = b := by
  have hd : (p ++ a).data = (p ++ b).data := congrArg String.data h
  rw [String.data_append, String.data_append] at hd
  exact String.ext (List.append_cancel_left hd)

/-! ## Claims -/

/-- C2: for every schema and input, `validate` resolves with the parsed
value when the underlying validator reports success, and rejects with a
`ValidationError` carrying the full ordered issue list (whose message
is the serialized issue list) when it reports failure; synchronous- and
asynchronous-returning validators are handled uniformly — the outcome
depends only on the carried result — awaiting exactly when the returned
value is a pending computation. -/
theorem validate_contract (s : Schema) (i : Value) :
    (validate s i =
      match (s.run i).result with
      | .success v => .ok v
      | .failure issues => .error (.validationError issues)) ∧
    validateAwaits s i = (s.run i).isPromise ∧
    ∀ issues : List Issue,
      (JsError.validationError issues).message = serializeIssues issues := by
  refine ⟨?_, rfl, fun _ => rfl⟩
  rw [validate_run_eq]
  cases (s.run i).result <;> rfl

/-- C1 counterexample: the built client's `mutate` surface has no entry
at all for the unregistered name `nonExistentMutation` — the property
is `undefined`, not a callable that rejects with
`Unknown mutation: nonExistentMutation` — and the only message that
surface can itself synthesize, `Mutation not found`, is not of that
form either.  So the claim's client half fails. -/
theorem client_surface_unregistered_counterexample :
    exampleClient.mutateSurface "nonExistentMutation" = none ∧
    (JsError.error "Mutation not found").message ≠
      (JsError.mutationNotFoundError "nonExistentMutation").message := by
  exact ⟨rfl, by decide⟩

/-- C1 amended: producer-side `ReplicacheServer.mutate` rejects every
unregistered name with a `MutationNotFoundError` whose message is
exactly `Unknown mutation: <name>` for the name supplied and for no
other name; the consumer-side built `mutate` surface, by contrast,
simply has no entry for an unregistered name (invoking it is a type
error on `undefined`, not a rejection with that message). -/
theorem unknown_mutation_server_only
    (srv : ReplicacheServer) (c : ReplicacheClient)
    (name other : String) (args : Value)
    (hs : srv.mutators name = none) (hc : c.mutators name = none) :
    srv.mutate name args = (.error (.mutationNotFoundError name), []) ∧
    (JsError.mutationNotFoundError name).message =
      "Unknown mutation: " ++ name ∧
    ((JsError.mutationNotFoundError name).message =
        "Unknown mutation: " ++ other ↔ other = name) ∧
    c.mutateSurface name = none := by
  refine ⟨?_, rfl, ?_, ?_⟩
  · unfold ReplicacheServer.mutate
    rw [hs]
  · constructor
    · intro h
      exact (string_append_left_cancel h).symm
    · rintro rfl
      rfl
  · unfold ReplicacheClient.mutateSurface
    rw [hc]
    rfl

/-- Witness for C1 amended at a concrete unregistered name. -/
theorem unknown_mutation_server_only_witness :
    exampleServer.mutators "foo" = none ∧
    exampleClient.mutators "foo" = none ∧
    (exampleServer.mutate "foo" (.prim .pnull) =
        (.error (.mutationNotFoundError "foo"), []) ∧
      (JsError.mutationNotFoundError "foo").message =
        "Unknown mutation: " ++ "foo" ∧
      ((JsError.mutationNotFoundError "foo").message =
          "Unknown mutation: " ++ "bar" ↔ "bar" = "foo") ∧
      exampleClient.mutateSurface "foo" = none) :=
  ⟨rfl, rfl,
    unknown_mutation_server_only exampleServer exampleClient "foo" "bar"
      (.prim .pnull) rfl rfl⟩

/-- C3: for every registered mutation and every input whose validation
fails, the dispatch rejects with the `ValidationError` and the handler
is never invoked (its recorded call list is empty, so no side effect
occurs) — on `ReplicacheServer.mutate`, on the transaction-wrapped
mutator registered with the store, and on the built client `mutate`
surface (which also leaves the store state untouched). -/
theorem invalid_input_rejects_handler_not_invoked
    (srv : ReplicacheServer) (c : ReplicacheClient) (rep : Rep)
    (sname cname : String) (sd : ServerMutatorDef) (cd : ClientMutatorDef)
    (sargs cargs : Value) (sIss cIss : List Issue)
    (hs : srv.mutators sname = some sd)
    (hsf : (sd.schema.run sargs).result = .failure sIss)
    (hc : c.mutators cname = some cd)
    (hcf : (cd.schema.run cargs).result = .failure cIss) :
    srv.mutate sname sargs = (.error (.validationError sIss), []) ∧
    (∀ tx : KVState,
      builtMutator cd tx cargs = (.error (.validationError cIss), [])) ∧
    c.mutateCall rep cname cargs =
      some (.error (.validationError cIss), rep, []) := by
  have hv : validate sd.schema sargs = .error (.validationError sIss) := by
    rw [validate_run_eq, hsf]
  have hcv : validate cd.schema cargs = .error (.validationError cIss) := by
    rw [validate_run_eq, hcf]
  refine ⟨?_, ?_, ?_⟩
  · simp only [ReplicacheServer.mutate, hs, hv]
  · intro tx
    simp only [builtMutator, hcv]
  · simp only [ReplicacheClient.mutateCall, ReplicacheClient.mutateSurface,
      hc, Option.map_some', hcv]

/-- Witness for C3 at a concrete registry, schema and ill-typed input. -/
theorem invalid_input_rejects_handler_not_invoked_witness :
    exampleServer.mutators "createUser" =
      some ⟨"createUser", intOnlySchema, okServerHandler⟩ ∧
    (intOnlySchema.run (.prim (.pstr "x"))).result =
      .failure [⟨"expected number", some ["id"]⟩] ∧
    exampleClient.mutators "createUser" =
      some ⟨"createUser", intOnlySchema, storeHandler⟩ ∧
    (exampleServer.mutate "createUser" (.prim (.pstr "x")) =
        (.error (.validationError [⟨"expected number", some ["id"]⟩]), []) ∧
      (∀ tx : KVState,
        builtMutator ⟨"createUser", intOnlySchema, storeHandler⟩ tx
            (.prim (.pstr "x")) =
          (.error (.validationError [⟨"expected number", some ["id"]⟩]), [])) ∧
      exampleClient.mutateCall rep0 "createUser" (.prim (.pstr "x")) =
        some (.error (.validationError [⟨"expected number", some ["id"]⟩]),
          rep0, [])) :=
  ⟨rfl, rfl, rfl,
    invalid_input_rejects_handler_not_invoked exampleServer exampleClient rep0
      "createUser" "createUser" ⟨"createUser", intOnlySchema, okServerHandler⟩
      ⟨"createUser", intOnlySchema, storeHandler⟩ (.prim (.pstr "x"))
      (.prim (.pstr "x")) [⟨"expected number", some ["id"]⟩]
      [⟨"expected number", some ["id"]⟩] rfl rfl rfl rfl⟩

/-- C4: registering a second definition of the same kind under an
already-used name raises no error and yields a registry storing exactly
the second definition under that name; dispatching that name behaves as
if only the second definition had been registered, so only the second
handler runs, validated by the second schema — on the server, on the
client mutation map, and on the client query map. -/
theorem duplicate_name_last_write_wins
    (srv : ReplicacheServer) (c : ReplicacheClient) (rep : Rep) (n : String)
    (s1 s2 cs1 cs2 qs1 qs2 : Schema)
    (f1 f2 : ServerHandler) (g1 g2 : ClientHandler) (q1 q2 : QueryHandler)
    (args : Value) :
    ((srv.mutation n s1 f1).mutation n s2 f2).mutators n = some ⟨n, s2, f2⟩ ∧
    ((srv.mutation n s1 f1).mutation n s2 f2).mutate n args =
      (srv.mutation n s2 f2).mutate n args ∧
    ((c.mutation n cs1 g1).mutation n cs2 g2).mutators n =
      some ⟨n, cs2, g2⟩ ∧
    ((c.mutation n cs1 g1).mutation n cs2 g2).mutateCall rep n args =
      (c.mutation n cs2 g2).mutateCall rep n args ∧
    ((c.query n qs1 q1).query n qs2 q2).queries n = some ⟨n, qs2, q2⟩ ∧
    ((c.query n qs1 q1).query n qs2 q2).querySurface n =
      (c.query n qs2 q2).querySurface n := by
  refine ⟨?_, ?_, ?_, ?_, ?_, ?_⟩ <;>
    simp [ReplicacheServer.mutation, ReplicacheServer.mutate,
      ReplicacheClient.mutation, ReplicacheClient.query,
      ReplicacheClient.mutateCall, ReplicacheClient.mutateSurface,
      ReplicacheClient.repMutators, ReplicacheClient.querySurface]

/-- C5: each builder call returns a fresh registry whose maps are the
parent's maps plus/override by the new definition: the new entry is
stored under its name, every other name maps — and dispatches — exactly
as before, and the other kind's map and the options are untouched.  The
source constructs each stage as a new instance over spread copies of
the private records and never assigns to the receiver, so a reference
held to the prior stage keeps exactly its old maps and dispatch
behaviour. -/
theorem builder_fresh_registry_frame
    (srv : ReplicacheServer) (c : ReplicacheClient) (rep : Rep)
    (n m : String) (s s' : Schema)
    (f : ClientHandler) (q : QueryHandler) (sf : ServerHandler)
    (args : Value) (hmn : m ≠ n) :
    (c.mutation n s f).mutators n = some ⟨n, s, f⟩ ∧
    (c.mutation n s f).mutators m = c.mutators m ∧
    (c.mutation n s f).queries = c.queries ∧
    (c.mutation n s f).options = c.options ∧
    (c.mutation n s f).mutateCall rep m args = c.mutateCall rep m args ∧
    (c.query n s q).queries n = some ⟨n, s, q⟩ ∧
    (c.query n s q).queries m = c.queries m ∧
    (c.query n s q).mutators = c.mutators ∧
    (c.query n s q).options = c.options ∧
    (srv.mutation n s' sf).mutators n = some ⟨n, s', sf⟩ ∧
    (srv.mutation n s' sf).mutators m = srv.mutators m := by
  refine ⟨?_, ?_, rfl, rfl, ?_, ?_, ?_, rfl, rfl, ?_, ?_⟩ <;>
    simp [ReplicacheServer.mutation, ReplicacheClient.mutation,
      ReplicacheClient.query, ReplicacheClient.mutateCall,
      ReplicacheClient.mutateSurface, ReplicacheClient.repMutators, hmn]

/-- Witness for C5 at concrete distinct names. -/
theorem builder_fresh_registry_frame_witness :
    ("getUser" : String) ≠ "newName" ∧
    ((exampleClient.mutation "newName" idSchema storeHandler).mutators
        "newName" = some ⟨"newName", idSchema, storeHandler⟩ ∧
      (exampleClient.mutation "newName" idSchema storeHandler).mutators
        "getUser" = exampleClient.mutators "getUser" ∧
      (exampleClient.mutation "newName" idSchema storeHandler).queries =
        exampleClient.queries ∧
      (exampleClient.mutation "newName" idSchema storeHandler).options =
        exampleClient.options ∧
      (exampleClient.mutation "newName" idSchema storeHandler).mutateCall rep0
          "getUser" (.prim (.pint 1)) =
        exampleClient.mutateCall rep0 "getUser" (.prim (.pint 1)) ∧
      (exampleClient.query "newName" idSchema countHandler).queries "newName" =
        some ⟨"newName", idSchema, countHandler⟩ ∧
      (exampleClient.query "newName" idSchema countHandler).queries "getUser" =
        exampleClient.queries "getUser" ∧
      (exampleClient.query "newName" idSchema countHandler).mutators =
        exampleClient.mutators ∧
      (exampleClient.query "newName" idSchema countHandler).options =
        exampleClient.options ∧
      (exampleServer.mutation "newName" idSchema okServerHandler).mutators
        "newName" = some ⟨"newName", idSchema, okServerHandler⟩ ∧
      (exampleServer.mutation "newName" idSchema okServerHandler).mutators
        "getUser" = exampleServer.mutators "getUser") :=
  ⟨by decide,
    builder_fresh_registry_frame exampleServer exampleClient rep0 "newName"
      "getUser" idSchema idSchema storeHandler countHandler okServerHandler
      (.prim (.pint 1)) (by decide)⟩

/-- C6: `q.once(input)` opens exactly one fresh read transaction
against the current store state and does not hold it past the single
invocation — the state is unchanged and the read-transaction count
advances by exactly one; when validation fails the call rejects with
the `ValidationError` and the handler never runs; when it succeeds the
handler is invoked exactly once, inside that transaction, on the
current state with the parsed input, and the call resolves with the
handler's result — any error the handler raises propagating
unmodified. -/
theorem query_once_contract (d : QueryDef) (rep : Rep) (input : Value) :
    (queryOnce d rep input).2.1.state = rep.state ∧
    (queryOnce d rep input).2.1.readTxCount = rep.readTxCount + 1 ∧
    (queryOnce d rep input).1 =
      (match (d.schema.run input).result with
        | .failure issues => .error (.validationError issues)
        | .success parsed => d.fn rep.state parsed) ∧
    (queryOnce d rep input).2.2 =
      (match (d.schema.run input).result with
        | .failure _ => []
        | .success parsed => [(rep.state, parsed)]) := by
  have h := validate_run_eq d.schema input
  cases hres : (d.schema.run input).result <;> simp only [hres] at h <;>
    simp [queryOnce, Rep.queryRun, h, hres]

/-- Unfolding of `runEvents` on a cons, via structure eta. -/
theorem runEvents_cons (s : UseQueryState) (e : UQEvent)
    (rest : List UQEvent) :
    runEvents s (e :: rest) =
      ((runEvents (useQueryStep s e).1 rest).1,
        (if (useQueryStep s e).2 then 1 else 0) +
          (runEvents (useQueryStep s e).1 rest).2) := rfl

/-- A render step never touches the snapshot, the log, the `loading`
flag, or the consumer-notification line. -/
theorem useQueryStep_render_fields (s : UseQueryState) (v : Value) :
    (useQueryStep s (.render v)).1.snapshot = s.snapshot ∧
    (useQueryStep s (.render v)).1.log = s.log ∧
    (useQueryStep s (.render v)).1.loading = s.loading ∧
    (useQueryStep s (.render v)).2 = false := by
  simp only [useQueryStep]
  by_cases hd : depsOf v = s.depsArray <;> simp [hd]

/-- The snapshot after a trace is the last delivered datum, or the
prior snapshot when none was delivered. -/
theorem runEvents_snapshot (s : UseQueryState) (evs : List UQEvent) :
    (runEvents s evs).1.snapshot =
      (match lastData evs with
        | some d => some d
        | none => s.snapshot) := by
  induction evs generalizing s with
  | nil => rfl
  | cons e rest ih =>
    rw [runEvents_cons]
    cases e with
    | render v =>
      rw [ih, (useQueryStep_render_fields s v).1]
      simp only [lastData]
      cases lastData rest <;> rfl
    | data d =>
      rw [ih]
      simp only [useQueryStep, lastData]
      cases lastData rest <;> rfl
    | err e' =>
      rw [ih]
      simp only [useQueryStep, lastData]
      cases lastData rest <;> rfl

/-- The log after a trace extends the prior log by exactly the
delivered errors, in order. -/
theorem runEvents_log (s : UseQueryState) (evs : List UQEvent) :
    (runEvents s evs).1.log = s.log ++ errorsOf evs := by
  induction evs generalizing s with
  | nil => simp [runEvents, errorsOf]
  | cons e rest ih =>
    rw [runEvents_cons]
    cases e with
    | render v =>
      rw [ih, (useQueryStep_render_fields s v).2.1]
      rfl
    | data d =>
      rw [ih]
      rfl
    | err e' =>
      rw [ih]
      simp [useQueryStep, errorsOf]

/-- The consumer is notified exactly once per successful delivery. -/
theorem runEvents_count (s : UseQueryState) (evs : List UQEvent) :
    (runEvents s evs).2 = countData evs := by
  induction evs generalizing s with
  | nil => rfl
  | cons e rest ih =>
    have hc : (runEvents s (e :: rest)).2 =
        (if (useQueryStep s e).2 then 1 else 0) +
          (runEvents (useQueryStep s e).1 rest).2 := rfl
    rw [hc, ih]
    cases e with
    | render v =>
      rw [(useQueryStep_render_fields s v).2.2.2]
      simp [countData]
    | data d =>
      simp [useQueryStep, countData]
      omega
    | err e' =>
      simp [useQueryStep, countData]

/-- `loading` is cleared exactly when some re-evaluation (successful
or failed) completed. -/
theorem runEvents_loading (s : UseQueryState) (evs : List UQEvent) :
    (runEvents s evs).1.loading =
      (if anyEval evs then false else s.loading) := by
  induction evs generalizing s with
  | nil => rfl
  | cons e rest ih =>
    rw [runEvents_cons]
    cases e with
    | render v =>
      rw [ih, (useQueryStep_render_fields s v).2.2.1]
      rfl
    | data d =>
      rw [ih]
      simp [useQueryStep, anyEval]
    | err e' =>
      rw [ih]
      simp [useQueryStep, anyEval]

/-- C7: over every event trace of the subscription bridge, failed
re-evaluations are logged in order and clear `loading` while leaving
the last good snapshot untouched, and never notify (or throw toward)
the consumer; successful re-evaluations replace the snapshot, clear
`loading` and notify the consumer exactly once each: after any trace
the snapshot is the last delivered datum (or the prior snapshot when
none arrived), the log has grown by exactly the delivered errors, the
notification count equals the number of successful deliveries, and
`loading` is `false` exactly when some re-evaluation completed. -/
theorem subscription_failsoft_trace (s : UseQueryState) (evs : List UQEvent) :
    (runEvents s evs).1.snapshot =
      (match lastData evs with
        | some d => some d
        | none => s.snapshot) ∧
    (runEvents s evs).1.log = s.log ++ errorsOf evs ∧
    (runEvents s evs).2 = countData evs ∧
    (runEvents s evs).1.loading = (if anyEval evs then false else s.loading) :=
  ⟨runEvents_snapshot s evs, runEvents_log s evs, runEvents_count s evs,
    runEvents_loading s evs⟩

/-- The active subscription index after a trace advances by one per
render whose computed dependency array differs from the active one. -/
theorem runEvents_generation (s : UseQueryState) (evs : List UQEvent) :
    (runEvents s evs).1.generation =
      s.generation + resubscribes s.depsArray evs := by
  induction evs generalizing s with
  | nil => rfl
  | cons e rest ih =>
    rw [runEvents_cons]
    cases e with
    | render v =>
      by_cases hd : depsOf v = s.depsArray
      · rw [ih]
        simp [useQueryStep, resubscribes, hd]
      · rw [ih]
        simp [useQueryStep, resubscribes, hd]
        omega
    | data d =>
      rw [ih]
      simp [useQueryStep, resubscribes]
    | err e' =>
      rw [ih]
      simp [useQueryStep, resubscribes]

/-- Teardowns likewise: one store-level subscription is torn down per
dependency-array change. -/
theorem runEvents_torndown (s : UseQueryState) (evs : List UQEvent) :
    (runEvents s evs).1.torndown =
      s.torndown + resubscribes s.depsArray evs := by
  induction evs generalizing s with
  | nil => rfl
  | cons e rest ih =>
    rw [runEvents_cons]
    cases e with
    | render v =>
      by_cases hd : depsOf v = s.depsArray
      · rw [ih]
        simp [useQueryStep, resubscribes, hd]
      · rw [ih]
        simp [useQueryStep, resubscribes, hd]
        omega
    | data d =>
      rw [ih]
      simp [useQueryStep, resubscribes]
    | err e' =>
      rw [ih]
      simp [useQueryStep, resubscribes]

/-- The dependency value captured by the active subscription after a
trace: the fresh value of the latest array-changing render, else the
initial one. -/
theorem runEvents_activeDeps (s : UseQueryState) (evs : List UQEvent) :
    (runEvents s evs).1.activeDependencies =
      activeDepsSpec s.depsArray s.activeDependencies evs := by
  induction evs generalizing s with
  | nil => rfl
  | cons e rest ih =>
    rw [runEvents_cons]
    cases e with
    | render v =>
      by_cases hd : depsOf v = s.depsArray
      · rw [ih]
        simp [useQueryStep, activeDepsSpec, hd]
      · rw [ih]
        simp [useQueryStep, activeDepsSpec, hd]
    | data d =>
      rw [ih]
      simp [useQueryStep, activeDepsSpec]
    | err e' =>
      rw [ih]
      simp [useQueryStep, activeDepsSpec]

/-- C8 counterexample: from dependency tuple `1`, after one successful
delivery, a render with dependency tuple `2` tears the old store-level
subscription down and establishes a new one (the generation advances
to 1), yet `loading` stays `false`: the hook never sets it back to
`true` on a dependency change, so the claim's final conjunct fails. -/
theorem useQuery_loading_reset_counterexample :
    (runEvents (useQueryInit (.prim (.pint 1)))
        [.data (.prim (.pstr "a")), .render (.prim (.pint 2))]).1.generation
      = 1 ∧
    (runEvents (useQueryInit (.prim (.pint 1)))
        [.data (.prim (.pstr "a")), .render (.prim (.pint 2))]).1.torndown
      = 1 ∧
    (runEvents (useQueryInit (.prim (.pint 1)))
        [.data (.prim (.pstr "a")), .render (.prim (.pint 2))]).1.loading
      = false := by
  refine ⟨by decide, by decide, by decide⟩

/-- C8 amended: resubscription is triggered exactly when the dependency
tuple changes under element-wise comparison of its constituent values
(an object contributing its property values, an array its elements, a
truthy scalar itself), never by mere reference identity of the tuple:
over any trace, exactly one teardown and one fresh subscription —
capturing the fresh dependency value — per such change; but `loading`
is not reset by a dependency change: a render step leaves `loading`
(and the snapshot) exactly as it was, and only the next delivery or
error under the new subscription updates it. -/
theorem useQuery_resubscription_spec (s : UseQueryState)
    (evs : List UQEvent) (dependencies : Value) :
    (runEvents s evs).1.generation =
      s.generation + resubscribes s.depsArray evs ∧
    (runEvents s evs).1.torndown =
      s.torndown + resubscribes s.depsArray evs ∧
    (runEvents s evs).1.activeDependencies =
      activeDepsSpec s.depsArray s.activeDependencies evs ∧
    (useQueryStep s (.render dependencies)).1.depsArray =
      depsOf dependencies ∧
    (useQueryStep s (.render dependencies)).1.loading = s.loading ∧
    (useQueryStep s (.render dependencies)).1.snapshot = s.snapshot := by
  refine ⟨runEvents_generation s evs, runEvents_torndown s evs,
    runEvents_activeDeps s evs, ?_,
    (useQueryStep_render_fields s dependencies).2.2.1,
    (useQueryStep_render_fields s dependencies).1⟩
  simp only [useQueryStep]
  by_cases hd : depsOf dependencies = s.depsArray <;> simp [hd]

/-- C9: registering `mutation(name, handler)` with the schema read off
the handler's attached `schema` property yields the same registry as
the three-argument `mutation(name, schema, handler)` form with that
schema — on the server and on the client the stored definition has the
same name, the same handler function and the same schema, so every
dispatch behaves identically. -/
theorem attached_schema_registration_equivalent
    (srv : ReplicacheServer) (c : ReplicacheClient) (n : String)
    (h : ServerHandlerWithSchema) (g : ClientHandlerWithSchema)
    (s t : Schema) (hs : h.schema = s) (hg : g.schema = t) :
    srv.mutationAttached n h = srv.mutation n s h.fn ∧
    c.mutationAttached n g = c.mutation n t g.fn ∧
    (∀ m args, (srv.mutationAttached n h).mutate m args =
      (srv.mutation n s h.fn).mutate m args) ∧
    (∀ rep m args, (c.mutationAttached n g).mutateCall rep m args =
      (c.mutation n t g.fn).mutateCall rep m args) := by
  subst hs
  subst hg
  exact ⟨rfl, rfl, fun _ _ => rfl, fun _ _ _ => rfl⟩

/-- Witness for C9 at a concrete handler with attached schema. -/
theorem attached_schema_registration_equivalent_witness :
    (ServerHandlerWithSchema.mk okServerHandler intOnlySchema).schema =
      intOnlySchema ∧
    (ClientHandlerWithSchema.mk storeHandler intOnlySchema).schema =
      intOnlySchema ∧
    (exampleServer.mutationAttached "addUser"
        ⟨okServerHandler, intOnlySchema⟩ =
      exampleServer.mutation "addUser" intOnlySchema okServerHandler ∧
    exampleClient.mutationAttached "addUser" ⟨storeHandler, intOnlySchema⟩ =
      exampleClient.mutation "addUser" intOnlySchema storeHandler ∧
    (∀ m args,
      (exampleServer.mutationAttached "addUser"
          ⟨okServerHandler, intOnlySchema⟩).mutate m args =
        (exampleServer.mutation "addUser" intOnlySchema
          okServerHandler).mutate m args) ∧
    (∀ rep m args,
      (exampleClient.mutationAttached "addUser"
          ⟨storeHandler, intOnlySchema⟩).mutateCall rep m args =
        (exampleClient.mutation "addUser" intOnlySchema
          storeHandler).mutateCall rep m args)) :=
  ⟨rfl, rfl,
    attached_schema_registration_equivalent exampleServer exampleClient
      "addUser" ⟨okServerHandler, intOnlySchema⟩ ⟨storeHandler, intOnlySchema⟩
      intOnlySchema intOnlySchema rfl rfl⟩

/-- Sequential composition of two validations with the same schema, as
the built client's `mutate` surface performs it: the outer wrapper's
parse feeding the wrapped mutator's parse. -/
def validateTwice (s : Schema) (i : Value) : Except JsError Value :=
  match validate s i with
  | .error e => .error e
  | .ok v => validate s v

/-- C10: dispatching a registered mutation through the built client's
`mutate` surface parses twice — the outer wrapper validates the raw
input and forwards the parsed value to the store's `mutate` entry,
whose transaction-wrapped mutator validates that already-parsed value
again — so the user handler is invoked exactly with the doubly-parsed
value (and not at all when either parse fails); double validation
agrees with single validation on every input exactly when the schema's
parse is idempotent on its own outputs. -/
theorem client_mutate_double_validation
    (c : ReplicacheClient) (rep : Rep) (name : String)
    (d : ClientMutatorDef) (input : Value)
    (hd : c.mutators name = some d) :
    (c.mutateCall rep name input).map (fun r => r.2.2) =
      some (match validateTwice d.schema input with
        | .ok v => [v]
        | .error _ => []) ∧
    ((∀ v w, validate d.schema v = .ok w → validate d.schema w = .ok w) ↔
      ∀ i, validateTwice d.schema i = validate d.schema i) := by
  constructor
  · simp only [ReplicacheClient.mutateCall, ReplicacheClient.mutateSurface,
      ReplicacheClient.repMutators, hd, Option.map_some', validateTwice]
    cases h1 : validate d.schema input with
    | error e => rfl
    | ok v1 =>
      simp only []
      cases h2 : validate d.schema v1 with
      | error e => simp [Rep.mutateRun, builtMutator, h2]
      | ok v2 =>
        cases h3 : d.fn rep.state v2 <;>
          simp [Rep.mutateRun, builtMutator, h2, h3]
  · constructor
    · intro hid i
      unfold validateTwice
      cases hv : validate d.schema i with
      | error e => rfl
      | ok w => exact hid i w hv
    · intro hall v w hv
      have h := hall v
      unfold validateTwice at h
      simp only [hv] at h
      exact h

/-- Witness for C10 at a concrete registered mutation. -/
theorem client_mutate_double_validation_witness :
    exampleClient.mutators "createUser" =
      some ⟨"createUser", intOnlySchema, storeHandler⟩ ∧
    ((exampleClient.mutateCall rep0 "createUser" (.prim (.pint 7))).map
        (fun r => r.2.2) =
      some (match validateTwice intOnlySchema (.prim (.pint 7)) with
        | .ok v => [v]
        | .error _ => []) ∧
    ((∀ v w, validate intOnlySchema v = .ok w →
        validate intOnlySchema w = .ok w) ↔
      ∀ i, validateTwice intOnlySchema i = validate intOnlySchema i)) :=
  ⟨rfl,
    client_mutate_double_validation exampleClient rep0 "createUser"
      ⟨"createUser", intOnlySchema, storeHandler⟩ (.prim (.pint 7)) rfl⟩

end ReplicacheRpc
